import Mathlib

/-!
Shallow embedding of the ticket CRUD service
(FastAPI modular monolith: app/ticket/{models,schemas,services,routes}.py,
app/core/config.py).

The relational store is modelled as a list of rows plus the next
auto-assigned primary key.  SQL `NULL` is `Option.none`; the `tickets`
table declares `title` and `description` with `nullable=False` (checked
at commit time, an `IntegrityError` aborts the transaction) while
`status` is a nullable column with insert-default `"open"`.

Pydantic request parsing is modelled over a small JSON value type:
`TicketCreate` requires string `title`/`description` of length ≥ 1 and
ignores extra keys; `TicketUpdate` distinguishes an absent key from an
explicit `null` (the source applies `model_dump(exclude_unset=True)`).
FastAPI validates each response against `response_model=TicketOut`
(string `status`, `title`/`description` of length ≥ 1); a row that fails
this validation produces a 500 response after the database effect has
already been committed.
-/

namespace TicketApp

/-- A JSON value, restricted to the shapes the ticket API exchanges. -/
inductive JValue where
  | jstr (s : String)
  | jnull
  | jint (n : Int)
  deriving DecidableEq, Repr

/-- A JSON object body: association list of keys to values. -/
abbrev JObject := List (String × JValue)

/-- First-match key lookup in a JSON object (Python dicts have unique keys;
`lookup` returns the value bound to `key`, if any). -/
def jlookup : JObject → String → Option JValue
  | [], _ => none
  | (k, v) :: rest, key => if k = key then some v else jlookup rest key

/-- models.py `Ticket` row: `id` integer primary key, `title` and
`description` non-nullable strings, `status` nullable string with
default `"open"`.  `Option` encodes SQL nullability of the stored cell. -/
structure Ticket where
  id : Nat
  title : Option String
  description : Option String
  status : Option String
  deriving DecidableEq, Repr

/-- The tickets table plus the primary-key autoincrement counter. -/
structure DB where
  nextId : Nat
  tickets : List Ticket
  deriving DecidableEq, Repr

/-- schemas.py `TicketCreate`: validated create payload. -/
structure TicketCreate where
  title : String
  description : String
  deriving DecidableEq, Repr

/-- State of one optional field of an update payload, after
`model_dump(exclude_unset=True)`: absent key, explicit `null`,
or a string value. -/
inductive FieldPatch where
  | unset
  | setNull
  | setStr (s : String)
  deriving DecidableEq, Repr

/-- schemas.py `TicketUpdate`: `title`, `description`, `status` each
independently absent, null, or a string. -/
structure TicketUpdate where
  title : FieldPatch
  description : FieldPatch
  status : FieldPatch
  deriving DecidableEq, Repr

/-- schemas.py `TicketOut`: the response model — integer `id`, strings
`title`/`description` (min_length 1 inherited from `TicketBase`) and
`status`. -/
structure TicketOut where
  id : Nat
  title : String
  description : String
  status : String
  deriving DecidableEq, Repr

/-- Pydantic validation of one required `str = Field(..., min_length=1)`
field: the key must be present, a string, and non-empty. -/
def parseStr1 : Option JValue → Option String
  | some (JValue.jstr s) => if 1 ≤ s.length then some s else none
  | _ => none

/-- Parse a create body into `TicketCreate`; extra keys are ignored
(pydantic default) and a missing/empty/non-string `title` or
`description` is a validation error. -/
def parseTicketCreate (j : JObject) : Option TicketCreate :=
  match parseStr1 (jlookup j "title"), parseStr1 (jlookup j "description") with
  | some t, some d => some { title := t, description := d }
  | _, _ => none

/-- Pydantic validation of one `str | None = None` update field: absent
key stays unset, `null` and strings are accepted as-is, any other type
is a validation error. -/
def parseField : Option JValue → Option FieldPatch
  | none => some FieldPatch.unset
  | some JValue.jnull => some FieldPatch.setNull
  | some (JValue.jstr s) => some (FieldPatch.setStr s)
  | some (JValue.jint _) => none

/-- Parse an update body into `TicketUpdate`. -/
def parseTicketUpdate (j : JObject) : Option TicketUpdate :=
  match parseField (jlookup j "title"), parseField (jlookup j "description"),
        parseField (jlookup j "status") with
  | some t, some d, some s => some { title := t, description := d, status := s }
  | _, _, _ => none

/-- `setattr` of one patched field onto the stored cell: an unset field
keeps the old value, a present field (null or string) overwrites it. -/
def FieldPatch.apply : FieldPatch → Option String → Option String
  | FieldPatch.unset, old => old
  | FieldPatch.setNull, _ => none
  | FieldPatch.setStr s, _ => some s

/-- The `setattr` loop of services.py `update_ticket`: every field present
in the payload overwrites the row's cell. -/
def applyUpdate (t : Ticket) (u : TicketUpdate) : Ticket :=
  { t with
    title := u.title.apply t.title
    description := u.description.apply t.description
    status := u.status.apply t.status }

/-- The NOT NULL table constraints checked when the session commits:
`title` and `description` may not be null (`status` may). -/
def rowOk (t : Ticket) : Bool :=
  t.title.isSome && t.description.isSome

/-- services.py `get_all_tickets`: `db.query(Ticket).all()`. -/
def get_all_tickets (db : DB) : List Ticket :=
  db.tickets

/-- services.py `get_ticket`: first row whose id matches, else `None`. -/
def get_ticket (db : DB) (ticket_id : Nat) : Option Ticket :=
  db.tickets.find? (fun t => t.id == ticket_id)

/-- services.py `create_ticket`: build a row from the validated payload
(the insert assigns the next primary key and the column default sets
`status` to `"open"`), commit, return the persisted row. -/
def create_ticket (db : DB) (payload : TicketCreate) : Ticket × DB :=
  let row : Ticket :=
    { id := db.nextId
      title := some payload.title
      description := some payload.description
      status := some "open" }
  (row, { nextId := db.nextId + 1, tickets := db.tickets ++ [row] })

/-- In-place mutation of the row with the given id (the ORM entity found
by `get_ticket` is mutated; the primary key is unique, so at most one
row changes). -/
def replaceRow (ts : List Ticket) (ticket_id : Nat) (row : Ticket) : List Ticket :=
  ts.map (fun t => if t.id == ticket_id then row else t)

/-- Outcome of services.py `update_ticket`: `None` when the id is absent;
`dbError` when the commit violates a NOT NULL constraint (the session is
rolled back, nothing persists); otherwise the refreshed row and store. -/
inductive UpdateOutcome where
  | notFound
  | dbError
  | updated (t : Ticket) (db : DB)
  deriving DecidableEq, Repr

/-- services.py `update_ticket`: fetch the row, `setattr` each field
present in the payload, commit. -/
def update_ticket (db : DB) (ticket_id : Nat) (payload : TicketUpdate) : UpdateOutcome :=
  match get_ticket db ticket_id with
  | none => UpdateOutcome.notFound
  | some t =>
    let t' := applyUpdate t payload
    if rowOk t' then
      UpdateOutcome.updated t' { nextId := db.nextId, tickets := replaceRow db.tickets ticket_id t' }
    else
      UpdateOutcome.dbError

/-- services.py `delete_ticket`: fetch the row, delete it, commit, and
return the row as it existed before removal (`None` when absent). -/
def delete_ticket (db : DB) (ticket_id : Nat) : Option (Ticket × DB) :=
  match get_ticket db ticket_id with
  | none => none
  | some t =>
    some (t, { nextId := db.nextId,
               tickets := db.tickets.filter (fun r => !(r.id == ticket_id)) })

/-- FastAPI response-model validation of a row against `TicketOut`:
fails (→ 500) when `title`/`description`/`status` is null or
`title`/`description` is shorter than the inherited `min_length=1`. -/
def serializeTicketOut (t : Ticket) : Option TicketOut :=
  match t.title, t.description, t.status with
  | some ti, some de, some st =>
    if 1 ≤ ti.length ∧ 1 ≤ de.length then
      some { id := t.id, title := ti, description := de, status := st }
    else none
  | _, _, _ => none

/-- app/core/config.py `Settings` (the fields the routes consume). -/
structure Settings where
  DATABASE_URL : String
  APP_NAME : String
  APP_DESC : String
  APP_VERSION : String
  ENV_ : Option String
  CORS_ORIGINS : Option String
  deriving DecidableEq, Repr

/-- Body returned by the `GET /tickets/papo` route. -/
structure PapoBody where
  message : String
  secret_key : Option String
  deriving DecidableEq, Repr

/-- HTTP responses the ticket routes can produce. -/
inductive Response where
  | created (t : TicketOut)
  | okTicket (t : TicketOut)
  | okList (ts : List TicketOut)
  | okPapo (b : PapoBody)
  | notFound (detail : String)
  | unprocessable
  | serverError
  deriving DecidableEq, Repr

/-- HTTP status code of each response shape. -/
def statusCode : Response → Nat
  | Response.created _ => 201
  | Response.okTicket _ => 200
  | Response.okList _ => 200
  | Response.okPapo _ => 200
  | Response.notFound _ => 404
  | Response.unprocessable => 422
  | Response.serverError => 500

namespace routes

/-- routes.py `papo`: `GET /tickets/papo` returns a fixed message and the
configured `ENV_` value. -/
def papo (settings : Settings) : Response :=
  Response.okPapo { message := "Hello from /test route!", secret_key := settings.ENV_ }

/-- routes.py `create`: `POST /tickets/` — parse body (422 on validation
error), create, respond 201 with the serialized row. -/
def create (db : DB) (body : JObject) : Response × DB :=
  match parseTicketCreate body with
  | none => (Response.unprocessable, db)
  | some payload =>
    match serializeTicketOut (create_ticket db payload).1 with
    | some out => (Response.created out, (create_ticket db payload).2)
    | none => (Response.serverError, (create_ticket db payload).2)

/-- The item list routes.py `list_all` computes: fetch all rows, then —
only when the `status` query parameter is truthy (present and non-empty)
— keep the rows whose status equals it. -/
def list_items (db : DB) (statusParam : Option String) : List Ticket :=
  match statusParam with
  | none => get_all_tickets db
  | some v =>
    if v = "" then get_all_tickets db
    else (get_all_tickets db).filter (fun t => t.status == some v)

/-- routes.py `list_all`: `GET /tickets/` with optional `status` query
parameter, responding with the serialized item list. -/
def list_all (db : DB) (statusParam : Option String) : Response × DB :=
  match (list_items db statusParam).mapM serializeTicketOut with
  | some outs => (Response.okList outs, db)
  | none => (Response.serverError, db)

/-- routes.py `get`: `GET /tickets/{ticket_id}` — 404 "Ticket not found"
when absent, else the serialized row. -/
def getOne (db : DB) (ticket_id : Nat) : Response × DB :=
  match get_ticket db ticket_id with
  | none => (Response.notFound "Ticket not found", db)
  | some t =>
    match serializeTicketOut t with
    | some out => (Response.okTicket out, db)
    | none => (Response.serverError, db)

/-- routes.py `update`: `PUT /tickets/{ticket_id}` — parse body (422 on
validation error), 404 when absent, else commit the patch and respond
with the serialized updated row. -/
def update (db : DB) (ticket_id : Nat) (body : JObject) : Response × DB :=
  match parseTicketUpdate body with
  | none => (Response.unprocessable, db)
  | some payload =>
    match update_ticket db ticket_id payload with
    | UpdateOutcome.notFound => (Response.notFound "Ticket not found", db)
    | UpdateOutcome.dbError => (Response.serverError, db)
    | UpdateOutcome.updated t db' =>
      match serializeTicketOut t with
      | some out => (Response.okTicket out, db')
      | none => (Response.serverError, db')

/-- routes.py `delete`: `DELETE /tickets/{ticket_id}` — 404 when absent,
else remove the row and respond with its pre-deletion snapshot. -/
def deleteOne (db : DB) (ticket_id : Nat) : Response × DB :=
  match delete_ticket db ticket_id with
  | none => (Response.notFound "Ticket not found", db)
  | some (t, db') =>
    match serializeTicketOut t with
    | some out => (Response.okTicket out, db')
    | none => (Response.serverError, db')

end routes

/-- Primary keys already issued are below the autoincrement counter
(holds of every store the process ever reaches). -/
def idsFresh (db : DB) : Prop :=
  ∀ t ∈ db.tickets, t.id < db.nextId

/-- Every stored row satisfies the NOT NULL column constraints on
`title` and `description`. -/
def nonNullCore (db : DB) : Prop :=
  ∀ t ∈ db.tickets, t.title.isSome = true ∧ t.description.isSome = true

/-- The body of a create request stripped of any client-supplied
`status` or `id` key. -/
def stripStatusId (j : JObject) : JObject :=
  j.filter (fun kv => !(kv.1 == "status") && !(kv.1 == "id"))

/-- Concrete sample row (as produced by a successful create). -/
def exTicket : Ticket :=
  { id := 1, title := some "a", description := some "b", status := some "open" }

/-- Concrete sample store holding `exTicket`. -/
def exDB : DB := { nextId := 2, tickets := [exTicket] }

/-- The empty store of a fresh process. -/
def emptyDB : DB := { nextId := 1, tickets := [] }

/-- Concrete create body carrying client-supplied `status` and `id` keys. -/
def exCreateBody : JObject :=
  [("title", JValue.jstr "T1"), ("description", JValue.jstr "D1"),
   ("status", JValue.jstr "closed"), ("id", JValue.jint 99)]

/-- Concrete update body setting only `status`. -/
def exStatusBody : JObject := [("status", JValue.jstr "closed")]

/-- Parsed update payload that sets only `title`, to the empty string. -/
def patchTitleEmpty : TicketUpdate :=
  { title := FieldPatch.setStr "", description := FieldPatch.unset, status := FieldPatch.unset }

/-- Parsed update payload that sets only `description`, to the empty string. -/
def patchDescriptionEmpty : TicketUpdate :=
  { title := FieldPatch.unset, description := FieldPatch.setStr "", status := FieldPatch.unset }

/-- Parsed update payload that sets only `status`, to the empty string. -/
def patchStatusEmpty : TicketUpdate :=
  { title := FieldPatch.unset, description := FieldPatch.unset, status := FieldPatch.setStr "" }

lemma find_append_singleton (ts : List Ticket) (r : Ticket) (n : Nat)
    (h : ∀ t ∈ ts, t.id ≠ n) (hr : r.id = n) :
    (ts ++ [r]).find? (fun t => t.id == n) = some r := by
  induction ts with
  | nil => simp [List.find?, hr]
  | cons a ts ih =>
    have hneg : (a.id == n) = false := by
      simp only [beq_eq_false_iff_ne, ne_eq]
      exact h a (List.mem_cons_self a ts)
    rw [List.cons_append]
    simp only [List.find?_cons, hneg]
    exact ih (fun t ht => h t (List.mem_cons_of_mem a ht))

lemma find_replace (ts : List Ticket) (n : Nat) (r : Ticket)
    (hr : r.id = n) (h : (ts.find? (fun t => t.id == n)).isSome = true) :
    (replaceRow ts n r).find? (fun t => t.id == n) = some r := by
  induction ts with
  | nil => simp [List.find?] at h
  | cons a ts ih =>
    by_cases ha : a.id = n
    · have hpos : (a.id == n) = true := beq_iff_eq.mpr ha
      simp only [replaceRow, List.map_cons, if_pos hpos]
      simp only [List.find?_cons, beq_iff_eq.mpr hr]
    · have hno : ¬ ((a.id == n) = true) := by
        simp only [beq_iff_eq]; exact ha
      have hneg : (a.id == n) = false := by
        simp only [beq_eq_false_iff_ne, ne_eq]; exact ha
      simp only [replaceRow, List.map_cons, if_neg hno]
      simp only [List.find?_cons, hneg]
      simp only [List.find?_cons, hneg] at h
      exact ih h

lemma find_erase (ts : List Ticket) (n : Nat) :
    ((ts.filter (fun r => !(r.id == n))).find? (fun t => t.id == n)) = none := by
  rw [List.find?_eq_none]
  intro x hx
  rcases List.mem_filter.mp hx with ⟨-, hpx⟩
  simp only [Bool.not_eq_true', beq_eq_false_iff_ne, ne_eq] at hpx
  simp only [beq_iff_eq]
  exact hpx

lemma jlookup_strip (j : JObject) (k : String)
    (h1 : k ≠ "status") (h2 : k ≠ "id") :
    jlookup (stripStatusId j) k = jlookup j k := by
  induction j with
  | nil => rfl
  | cons kv j ih =>
    obtain ⟨k1, v1⟩ := kv
    by_cases hs : k1 = "status"
    · subst hs
      have hdrop : stripStatusId (("status", v1) :: j) = stripStatusId j := by
        simp [stripStatusId, List.filter_cons]
      rw [hdrop, ih, jlookup, if_neg (fun he => h1 he.symm)]
    · by_cases hi : k1 = "id"
      · subst hi
        have hdrop : stripStatusId (("id", v1) :: j) = stripStatusId j := by
          simp [stripStatusId, List.filter_cons]
        rw [hdrop, ih, jlookup, if_neg (fun he => h2 he.symm)]
      · have hkeep : stripStatusId ((k1, v1) :: j) = (k1, v1) :: stripStatusId j := by
          simp [stripStatusId, List.filter_cons, hs, hi]
        rw [hkeep]
        by_cases hk : k1 = k
        · rw [jlookup, jlookup, if_pos hk, if_pos hk]
        · rw [jlookup, jlookup, if_neg hk, if_neg hk, ih]

lemma update_ticket_found (db : DB) (ticket_id : Nat) (T : Ticket) (u : TicketUpdate)
    (hGet : get_ticket db ticket_id = some T) (hok : rowOk (applyUpdate T u) = true) :
    update_ticket db ticket_id u =
      UpdateOutcome.updated (applyUpdate T u)
        { nextId := db.nextId, tickets := replaceRow db.tickets ticket_id (applyUpdate T u) } := by
  simp only [update_ticket, hGet]
  rw [if_pos hok]

lemma get_ticket_id (db : DB) (ticket_id : Nat) (T : Ticket)
    (hGet : get_ticket db ticket_id = some T) : T.id = ticket_id := by
  have hGet' : db.tickets.find? (fun t => t.id == ticket_id) = some T := hGet
  have h := List.find?_some hGet'
  simpa using h

lemma get_ticket_mem (db : DB) (ticket_id : Nat) (T : Ticket)
    (hGet : get_ticket db ticket_id = some T) : T ∈ db.tickets := by
  have hGet' : db.tickets.find? (fun t => t.id == ticket_id) = some T := hGet
  exact List.mem_of_find?_eq_some hGet'

instance (db : DB) : Decidable (idsFresh db) := by
  unfold idsFresh; infer_instance

instance (db : DB) : Decidable (nonNullCore db) := by
  unfold nonNullCore; infer_instance

/-- CLAIM C5 — Round-trip: for every valid create-input, `get` at the id
of the ticket `create` returned yields exactly that ticket (same id,
title, description, status). -/
theorem create_get_round_trip (db : DB) (payload : TicketCreate) (h : idsFresh db) :
    get_ticket (create_ticket db payload).2 (create_ticket db payload).1.id =
      some (create_ticket db payload).1 := by
  show (db.tickets ++ [(create_ticket db payload).1]).find?
      (fun t => t.id == (create_ticket db payload).1.id) = some (create_ticket db payload).1
  exact find_append_singleton db.tickets _ db.nextId
    (fun t ht => Nat.ne_of_lt (h t ht)) rfl

theorem create_get_round_trip_witness :
    idsFresh emptyDB ∧
    get_ticket (create_ticket emptyDB { title := "T1", description := "D1" }).2
        (create_ticket emptyDB { title := "T1", description := "D1" }).1.id =
      some (create_ticket emptyDB { title := "T1", description := "D1" }).1 :=
  ⟨by decide, create_get_round_trip emptyDB { title := "T1", description := "D1" } (by decide)⟩

/-- CLAIM C1 — A payload that sets only `status` leaves `title` and
`description` of the target ticket unchanged: the update commits, a
subsequent `get` of the id returns the row with the old title and
description and the new status. -/
theorem update_only_status_preserves_title_description
    (db : DB) (ticket_id : Nat) (v : String) (T : Ticket)
    (hWF : nonNullCore db) (hGet : get_ticket db ticket_id = some T) :
    ∃ db',
      update_ticket db ticket_id
          { title := FieldPatch.unset, description := FieldPatch.unset,
            status := FieldPatch.setStr v } =
        UpdateOutcome.updated { T with status := some v } db' ∧
      get_ticket db' ticket_id = some { T with status := some v } ∧
      ({ T with status := some v } : Ticket).title = T.title ∧
      ({ T with status := some v } : Ticket).description = T.description := by
  obtain ⟨hti, hde⟩ := hWF T (get_ticket_mem db ticket_id T hGet)
  have hok : rowOk { T with status := some v } = true := by
    simp [rowOk, hti, hde]
  refine ⟨{ nextId := db.nextId,
            tickets := replaceRow db.tickets ticket_id { T with status := some v } },
          update_ticket_found db ticket_id T _ hGet hok, ?_, rfl, rfl⟩
  show (replaceRow db.tickets ticket_id { T with status := some v }).find?
      (fun t => t.id == ticket_id) = some { T with status := some v }
  refine find_replace db.tickets ticket_id _ ?_ ?_
  · exact get_ticket_id db ticket_id T hGet
  · show (get_ticket db ticket_id).isSome = true
    rw [hGet]; rfl

lemma parseTicketCreate_none_left (j : JObject)
    (h : parseStr1 (jlookup j "title") = none) : parseTicketCreate j = none := by
  cases h2 : parseStr1 (jlookup j "description") <;>
    simp [parseTicketCreate, h, h2]

lemma parseTicketCreate_none_right (j : JObject)
    (h : parseStr1 (jlookup j "description") = none) : parseTicketCreate j = none := by
  cases h2 : parseStr1 (jlookup j "title") <;>
    simp [parseTicketCreate, h, h2]

/-- CLAIM C2 — Every created ticket has status `"open"`, and any
client-supplied `status` or `id` key in the create body has no effect:
stripping those keys leaves the create endpoint's behavior unchanged. -/
theorem create_status_open_ignores_client_status_id
    (db : DB) (j : JObject) (payload : TicketCreate)
    (h : parseTicketCreate j = some payload) :
    (create_ticket db payload).1.status = some "open" ∧
    routes.create db (stripStatusId j) = routes.create db j := by
  refine ⟨rfl, ?_⟩
  have hp : parseTicketCreate (stripStatusId j) = parseTicketCreate j := by
    unfold parseTicketCreate
    rw [jlookup_strip j "title" (by decide) (by decide),
        jlookup_strip j "description" (by decide) (by decide)]
  unfold routes.create
  rw [hp]

theorem create_status_open_ignores_client_status_id_witness :
    parseTicketCreate exCreateBody = some { title := "T1", description := "D1" } ∧
    ((create_ticket emptyDB { title := "T1", description := "D1" }).1.status = some "open" ∧
      routes.create emptyDB (stripStatusId exCreateBody) = routes.create emptyDB exCreateBody) :=
  ⟨by decide,
   create_status_open_ignores_client_status_id emptyDB exCreateBody
     { title := "T1", description := "D1" } (by decide)⟩

/-- CLAIM C3 — For an id that is absent from the store, the get, update,
and delete handlers all respond 404 with detail "Ticket not found" and
leave the store unchanged. -/
theorem absent_id_not_found_404
    (db : DB) (ticket_id : Nat) (j : JObject) (u : TicketUpdate)
    (hParse : parseTicketUpdate j = some u)
    (hAbsent : get_ticket db ticket_id = none) :
    routes.getOne db ticket_id = (Response.notFound "Ticket not found", db) ∧
    routes.update db ticket_id j = (Response.notFound "Ticket not found", db) ∧
    routes.deleteOne db ticket_id = (Response.notFound "Ticket not found", db) ∧
    statusCode (Response.notFound "Ticket not found") = 404 := by
  have hu : update_ticket db ticket_id u = UpdateOutcome.notFound := by
    simp only [update_ticket, hAbsent]
  have hd : delete_ticket db ticket_id = none := by
    simp only [delete_ticket, hAbsent]
  refine ⟨?_, ?_, ?_, rfl⟩
  · simp only [routes.getOne, hAbsent]
  · simp only [routes.update, hParse, hu]
  · simp only [routes.deleteOne, hd]

theorem absent_id_not_found_404_witness :
    parseTicketUpdate exStatusBody =
      some { title := FieldPatch.unset, description := FieldPatch.unset,
             status := FieldPatch.setStr "closed" } ∧
    get_ticket exDB 9999999 = none ∧
    (routes.getOne exDB 9999999 = (Response.notFound "Ticket not found", exDB) ∧
     routes.update exDB 9999999 exStatusBody = (Response.notFound "Ticket not found", exDB) ∧
     routes.deleteOne exDB 9999999 = (Response.notFound "Ticket not found", exDB) ∧
     statusCode (Response.notFound "Ticket not found") = 404) :=
  ⟨by decide, by decide,
   absent_id_not_found_404 exDB 9999999 exStatusBody
     { title := FieldPatch.unset, description := FieldPatch.unset,
       status := FieldPatch.setStr "closed" } (by decide) (by decide)⟩

/-- CLAIM C6 — A create body whose `title` or `description` is the empty
string, or which is missing either key, is rejected with 422 and leaves
the store unchanged. -/
theorem create_validation_422_store_unchanged (db : DB) (j : JObject)
    (h : jlookup j "title" = some (JValue.jstr "") ∨
         jlookup j "description" = some (JValue.jstr "") ∨
         jlookup j "title" = none ∨ jlookup j "description" = none) :
    routes.create db j = (Response.unprocessable, db) ∧
    statusCode (routes.create db j).1 = 422 := by
  have hp : parseTicketCreate j = none := by
    rcases h with h | h | h | h
    · exact parseTicketCreate_none_left j (by rw [h]; decide)
    · exact parseTicketCreate_none_right j (by rw [h]; decide)
    · exact parseTicketCreate_none_left j (by rw [h]; rfl)
    · exact parseTicketCreate_none_right j (by rw [h]; rfl)
  have hc : routes.create db j = (Response.unprocessable, db) := by
    simp only [routes.create, hp]
  exact ⟨hc, by rw [hc]; rfl⟩

theorem create_validation_422_store_unchanged_witness :
    (jlookup [(("description" : String), JValue.jstr "x")] "title" = some (JValue.jstr "") ∨
     jlookup [(("description" : String), JValue.jstr "x")] "description" = some (JValue.jstr "") ∨
     jlookup [(("description" : String), JValue.jstr "x")] "title" = none ∨
     jlookup [(("description" : String), JValue.jstr "x")] "description" = none) ∧
    (routes.create exDB [(("description" : String), JValue.jstr "x")] =
        (Response.unprocessable, exDB) ∧
      statusCode (routes.create exDB [(("description" : String), JValue.jstr "x")]).1 = 422) :=
  ⟨Or.inr (Or.inr (Or.inl (by decide))),
   create_validation_422_store_unchanged exDB [(("description" : String), JValue.jstr "x")]
     (Or.inr (Or.inr (Or.inl (by decide))))⟩

/-- CLAIM C10 — `GET /tickets/papo` responds 200 with a fixed message and
the configured `ENV_` setting disclosed verbatim in the body. -/
theorem papo_discloses_env_setting (s : Settings) :
    routes.papo s =
      Response.okPapo { message := "Hello from /test route!", secret_key := s.ENV_ } ∧
    statusCode (routes.papo s) = 200 :=
  ⟨rfl, rfl⟩

lemma rowOk_split (t : Ticket) (h : rowOk t = true) :
    t.title.isSome = true ∧ t.description.isSome = true := by
  simpa [rowOk, Bool.and_eq_true] using h

lemma serialize_some_elim (t : Ticket) (o : TicketOut)
    (h : serializeTicketOut t = some o) :
    t.title = some o.title ∧ t.description = some o.description ∧
    t.status = some o.status ∧ 1 ≤ o.title.length ∧ 1 ≤ o.description.length ∧
    o.id = t.id := by
  cases hti : t.title with
  | none => simp [serializeTicketOut, hti] at h
  | some ti =>
    cases hde : t.description with
    | none => simp [serializeTicketOut, hti, hde] at h
    | some de =>
      cases hst : t.status with
      | none => simp [serializeTicketOut, hti, hde, hst] at h
      | some st =>
        simp only [serializeTicketOut, hti, hde, hst] at h
        by_cases hlen : 1 ≤ ti.length ∧ 1 ≤ de.length
        · rw [if_pos hlen] at h
          injection h with h
          subst h
          exact ⟨rfl, rfl, rfl, hlen.1, hlen.2, rfl⟩
        · rw [if_neg hlen] at h
          exact absurd h (by simp)

lemma routes_update_ok (db : DB) (ticket_id : Nat) (j : JObject) (u : TicketUpdate)
    (T : Ticket) (out : TicketOut)
    (hParse : parseTicketUpdate j = some u)
    (hGet : get_ticket db ticket_id = some T)
    (hok : rowOk (applyUpdate T u) = true)
    (hser : serializeTicketOut (applyUpdate T u) = some out) :
    routes.update db ticket_id j =
      (Response.okTicket out,
       { nextId := db.nextId,
         tickets := replaceRow db.tickets ticket_id (applyUpdate T u) }) := by
  simp only [routes.update, hParse, update_ticket_found db ticket_id T u hGet hok, hser]

lemma routes_update_serverError (db : DB) (ticket_id : Nat) (j : JObject)
    (u : TicketUpdate) (T : Ticket)
    (hParse : parseTicketUpdate j = some u)
    (hGet : get_ticket db ticket_id = some T)
    (hok : rowOk (applyUpdate T u) = true)
    (hser : serializeTicketOut (applyUpdate T u) = none) :
    routes.update db ticket_id j =
      (Response.serverError,
       { nextId := db.nextId,
         tickets := replaceRow db.tickets ticket_id (applyUpdate T u) }) := by
  simp only [routes.update, hParse, update_ticket_found db ticket_id T u hGet hok, hser]

lemma get_after_replace (db : DB) (ticket_id : Nat) (T row : Ticket)
    (hGet : get_ticket db ticket_id = some T) (hid : row.id = T.id) :
    get_ticket { nextId := db.nextId,
                 tickets := replaceRow db.tickets ticket_id row } ticket_id = some row := by
  show (replaceRow db.tickets ticket_id row).find? (fun t => t.id == ticket_id) = some row
  refine find_replace db.tickets ticket_id row ?_ ?_
  · rw [hid]; exact get_ticket_id db ticket_id T hGet
  · show (get_ticket db ticket_id).isSome = true
    rw [hGet]; rfl

lemma parse_only_title_empty :
    parseTicketUpdate [("title", JValue.jstr "")] = some patchTitleEmpty := by decide

lemma parse_only_description_empty :
    parseTicketUpdate [("description", JValue.jstr "")] = some patchDescriptionEmpty := by decide

lemma parse_only_status_empty :
    parseTicketUpdate [("status", JValue.jstr "")] = some patchStatusEmpty := by decide

/-- CLAIM C7 counterexample — emptying `title` on an existing ticket does
persist the empty string to the store, but the PUT handler responds 500
(the updated row no longer satisfies the response model `TicketOut`),
not 200 as the claim states. -/
theorem empty_string_update_claim_counterexample :
    (routes.update exDB 1 [("title", JValue.jstr "")]).1 = Response.serverError ∧
    statusCode (routes.update exDB 1 [("title", JValue.jstr "")]).1 ≠ 200 ∧
    (routes.update exDB 1 [("title", JValue.jstr "")]).2.tickets =
      [{ exTicket with title := some "" }] := by decide

/-- CLAIM C7 amended — a present empty-string field always overwrites the
stored field with no length validation (the commit succeeds); the PUT
handler responds 200 with the updated ticket when the emptied field is
`status`, but responds 500 when `title` or `description` is emptied,
because the updated row fails response-model validation — the store
still retains the empty value. -/
theorem empty_string_update_overwrites_amended
    (db : DB) (ticket_id : Nat) (T : Ticket) (O : TicketOut)
    (hGet : get_ticket db ticket_id = some T)
    (hSer : serializeTicketOut T = some O) :
    (∃ db',
      routes.update db ticket_id [("status", JValue.jstr "")] =
        (Response.okTicket { O with status := "" }, db') ∧
      get_ticket db' ticket_id = some { T with status := some "" }) ∧
    ((routes.update db ticket_id [("title", JValue.jstr "")]).1 = Response.serverError ∧
     get_ticket (routes.update db ticket_id [("title", JValue.jstr "")]).2 ticket_id =
       some { T with title := some "" }) ∧
    ((routes.update db ticket_id [("description", JValue.jstr "")]).1 = Response.serverError ∧
     get_ticket (routes.update db ticket_id [("description", JValue.jstr "")]).2 ticket_id =
       some { T with description := some "" }) := by
  obtain ⟨h1, h2, h3, h4, h5, h6⟩ := serialize_some_elim T O hSer
  refine ⟨?_, ?_, ?_⟩
  · -- status emptied: still serializable, 200
    have happ : applyUpdate T patchStatusEmpty = { T with status := some "" } := rfl
    have hok : rowOk (applyUpdate T patchStatusEmpty) = true := by
      rw [happ]; simp [rowOk, h1, h2]
    have hs : serializeTicketOut (applyUpdate T patchStatusEmpty) =
        some { O with status := "" } := by
      rw [happ]
      show serializeTicketOut { T with status := some "" } =
        some { id := O.id, title := O.title, description := O.description, status := "" }
      simp only [serializeTicketOut, h1, h2]
      rw [if_pos ⟨h4, h5⟩, h6]
    refine ⟨{ nextId := db.nextId,
              tickets := replaceRow db.tickets ticket_id { T with status := some "" } },
            ?_, ?_⟩
    · have hupd := routes_update_ok db ticket_id [("status", JValue.jstr "")] patchStatusEmpty
        T { O with status := "" } parse_only_status_empty hGet hok hs
      rw [hupd, happ]
    · exact get_after_replace db ticket_id T _ hGet rfl
  · -- title emptied: persisted, but the response is a 500
    have happ : applyUpdate T patchTitleEmpty = { T with title := some "" } := rfl
    have hok : rowOk (applyUpdate T patchTitleEmpty) = true := by
      rw [happ]; simp [rowOk, h2]
    have hs : serializeTicketOut (applyUpdate T patchTitleEmpty) = none := by
      rw [happ]
      simp only [serializeTicketOut, h2, h3]
      rw [if_neg]
      intro hcon
      exact absurd hcon.1 (by decide)
    have hupd := routes_update_serverError db ticket_id [("title", JValue.jstr "")]
      patchTitleEmpty T parse_only_title_empty hGet hok hs
    rw [hupd, happ]
    exact ⟨rfl, get_after_replace db ticket_id T _ hGet rfl⟩
  · -- description emptied: persisted, but the response is a 500
    have happ : applyUpdate T patchDescriptionEmpty = { T with description := some "" } := rfl
    have hok : rowOk (applyUpdate T patchDescriptionEmpty) = true := by
      rw [happ]; simp [rowOk, h1]
    have hs : serializeTicketOut (applyUpdate T patchDescriptionEmpty) = none := by
      rw [happ]
      simp only [serializeTicketOut, h1, h3]
      rw [if_neg]
      intro hcon
      exact absurd hcon.2 (by decide)
    have hupd := routes_update_serverError db ticket_id [("description", JValue.jstr "")]
      patchDescriptionEmpty T parse_only_description_empty hGet hok hs
    rw [hupd, happ]
    exact ⟨rfl, get_after_replace db ticket_id T _ hGet rfl⟩

theorem empty_string_update_overwrites_amended_witness :
    get_ticket exDB 1 = some exTicket ∧
    serializeTicketOut exTicket = some { id := 1, title := "a", description := "b", status := "open" } ∧
    ((∃ db',
        routes.update exDB 1 [("status", JValue.jstr "")] =
          (Response.okTicket { id := 1, title := "a", description := "b", status := "" }, db') ∧
        get_ticket db' 1 = some { exTicket with status := some "" }) ∧
      ((routes.update exDB 1 [("title", JValue.jstr "")]).1 = Response.serverError ∧
        get_ticket (routes.update exDB 1 [("title", JValue.jstr "")]).2 1 =
          some { exTicket with title := some "" }) ∧
      ((routes.update exDB 1 [("description", JValue.jstr "")]).1 = Response.serverError ∧
        get_ticket (routes.update exDB 1 [("description", JValue.jstr "")]).2 1 =
          some { exTicket with description := some "" })) :=
  ⟨by decide, by decide,
   empty_string_update_overwrites_amended exDB 1 exTicket
     { id := 1, title := "a", description := "b", status := "open" } (by decide) (by decide)⟩

lemma nonNullList_replace (ts : List Ticket) (n : Nat) (row : Ticket)
    (h : ∀ t ∈ ts, t.title.isSome = true ∧ t.description.isSome = true)
    (hrow : row.title.isSome = true ∧ row.description.isSome = true) :
    ∀ t ∈ replaceRow ts n row, t.title.isSome = true ∧ t.description.isSome = true := by
  intro t ht
  rcases List.mem_map.mp ht with ⟨s, hs, he⟩
  subst he
  by_cases hid : (s.id == n) = true
  · rw [if_pos hid]; exact hrow
  · rw [if_neg hid]; exact h s hs

lemma nonNullCore_create (db : DB) (payload : TicketCreate) (h : nonNullCore db) :
    nonNullCore (create_ticket db payload).2 := by
  intro t ht
  have ht' : t ∈ db.tickets ++ [(create_ticket db payload).1] := ht
  rcases List.mem_append.mp ht' with h1 | h1
  · exact h t h1
  · have he : t = (create_ticket db payload).1 := List.mem_singleton.mp h1
    subst he
    exact ⟨rfl, rfl⟩

lemma update_ticket_updated_inv (db : DB) (n : Nat) (u : TicketUpdate) (t : Ticket) (db' : DB)
    (hu : update_ticket db n u = UpdateOutcome.updated t db') :
    rowOk t = true ∧
    db' = { nextId := db.nextId, tickets := replaceRow db.tickets n t } := by
  cases hg : get_ticket db n with
  | none =>
    simp only [update_ticket, hg] at hu
    cases hu
  | some T =>
    simp only [update_ticket, hg] at hu
    by_cases hok : rowOk (applyUpdate T u) = true
    · rw [if_pos hok] at hu
      injection hu with h1 h2
      subst h1
      subst h2
      exact ⟨hok, rfl⟩
    · rw [if_neg hok] at hu
      simp at hu

lemma delete_ticket_some_inv (db : DB) (n : Nat) (t : Ticket) (db' : DB)
    (hd : delete_ticket db n = some (t, db')) :
    db' = { nextId := db.nextId, tickets := db.tickets.filter (fun r => !(r.id == n)) } := by
  cases hg : get_ticket db n with
  | none =>
    simp only [delete_ticket, hg] at hd
    cases hd
  | some T =>
    simp only [delete_ticket, hg, Option.some.injEq, Prod.mk.injEq] at hd
    exact hd.2.symm

/-- CLAIM C8 counterexample — a sequence of two valid API calls (create,
then update with an explicit `"status": null` payload) leaves the stored
ticket with a null `status` field: `exclude_unset` keeps explicit nulls
and the `status` column is nullable. -/
theorem non_null_claim_counterexample :
    (routes.update
        (routes.create emptyDB
          [("title", JValue.jstr "a"), ("description", JValue.jstr "b")]).2
        1 [("status", JValue.jnull)]).2.tickets =
      [{ id := 1, title := some "a", description := some "b", status := none }] ∧
    ({ id := 1, title := some "a", description := some "b", status := none } : Ticket).status =
      none := by decide

/-- CLAIM C8 amended — every operation preserves the invariant that each
stored ticket has a non-null id, title, and description (an update that
patches title or description to null fails the NOT NULL commit and
changes nothing); `status`, however, is a nullable column, and an update
payload carrying an explicit null `status` leaves it stored as null. -/
theorem non_null_core_invariant_amended (db : DB) (h : nonNullCore db) :
    (∀ j, nonNullCore (routes.create db j).2) ∧
    (∀ p, nonNullCore (routes.list_all db p).2) ∧
    (∀ n, nonNullCore (routes.getOne db n).2) ∧
    (∀ n j, nonNullCore (routes.update db n j).2) ∧
    (∀ n, nonNullCore (routes.deleteOne db n).2) := by
  refine ⟨?_, ?_, ?_, ?_, ?_⟩
  · intro j
    cases hp : parseTicketCreate j with
    | none => simpa only [routes.create, hp] using h
    | some payload =>
      cases hs : serializeTicketOut (create_ticket db payload).1 with
      | none =>
        simp only [routes.create, hp, hs]
        exact nonNullCore_create db payload h
      | some out =>
        simp only [routes.create, hp, hs]
        exact nonNullCore_create db payload h
  · intro p
    cases hm : (routes.list_items db p).mapM serializeTicketOut with
    | none => simpa only [routes.list_all, hm] using h
    | some outs => simpa only [routes.list_all, hm] using h
  · intro n
    cases hg : get_ticket db n with
    | none => simpa only [routes.getOne, hg] using h
    | some t =>
      cases hs : serializeTicketOut t with
      | none => simpa only [routes.getOne, hg, hs] using h
      | some out => simpa only [routes.getOne, hg, hs] using h
  · intro n j
    cases hp : parseTicketUpdate j with
    | none => simpa only [routes.update, hp] using h
    | some u =>
      cases hu : update_ticket db n u with
      | notFound => simpa only [routes.update, hp, hu] using h
      | dbError => simpa only [routes.update, hp, hu] using h
      | updated t db' =>
        obtain ⟨hok, hdb⟩ := update_ticket_updated_inv db n u t db' hu
        subst hdb
        have hsnd : (routes.update db n j).2 =
            { nextId := db.nextId, tickets := replaceRow db.tickets n t } := by
          cases hs : serializeTicketOut t <;> simp only [routes.update, hp, hu, hs]
        rw [hsnd]
        intro x hx
        exact nonNullList_replace db.tickets n t h (rowOk_split t hok) x hx
  · intro n
    cases hd : delete_ticket db n with
    | none => simpa only [routes.deleteOne, hd] using h
    | some pair =>
      obtain ⟨t, db'⟩ := pair
      obtain hdb := delete_ticket_some_inv db n t db' hd
      subst hdb
      have hsnd : (routes.deleteOne db n).2 =
          { nextId := db.nextId, tickets := db.tickets.filter (fun r => !(r.id == n)) } := by
        cases hs : serializeTicketOut t <;> simp only [routes.deleteOne, hd, hs]
      rw [hsnd]
      intro x hx
      exact h x (List.mem_filter.mp hx).1

theorem non_null_core_invariant_amended_witness :
    nonNullCore exDB ∧ nonNullCore (routes.update exDB 1 [("status", JValue.jnull)]).2 :=
  ⟨by decide,
   (non_null_core_invariant_amended exDB (by decide)).2.2.2.1 1 [("status", JValue.jnull)]⟩

/-- A store holding a ticket whose title was emptied by a previous update
(reachable: create, then update `title` to the empty string). -/
def exEmptyTitleDB : DB :=
  { nextId := 2, tickets := [{ id := 1, title := some "", description := some "b", status := some "open" }] }

/-- CLAIM C9 counterexample — deleting a stored ticket whose title is the
empty string (a state reachable through valid API calls) does remove the
row, but the handler responds 500, not 200 with the snapshot: the
snapshot fails response-model validation. -/
theorem delete_claim_counterexample :
    get_ticket exEmptyTitleDB 1 =
      some { id := 1, title := some "", description := some "b", status := some "open" } ∧
    (routes.deleteOne exEmptyTitleDB 1).1 = Response.serverError ∧
    statusCode (routes.deleteOne exEmptyTitleDB 1).1 ≠ 200 ∧
    (routes.deleteOne exEmptyTitleDB 1).2.tickets = [] := by decide

/-- CLAIM C9 amended — for every id present in the store, delete removes
the ticket and a subsequent get fails with 404 "Ticket not found"; the
handler responds 200 with the pre-deletion snapshot exactly when the
snapshot satisfies the output schema (non-empty title and description,
non-null status), and otherwise responds 500 while still removing the
row. -/
theorem delete_removes_and_get_404_amended (db : DB) (ticket_id : Nat) (T : Ticket)
    (hGet : get_ticket db ticket_id = some T) :
    ∃ db',
      delete_ticket db ticket_id = some (T, db') ∧
      get_ticket db' ticket_id = none ∧
      routes.getOne db' ticket_id = (Response.notFound "Ticket not found", db') ∧
      (∀ out, serializeTicketOut T = some out →
        routes.deleteOne db ticket_id = (Response.okTicket out, db') ∧
        statusCode (Response.okTicket out) = 200) ∧
      (serializeTicketOut T = none →
        routes.deleteOne db ticket_id = (Response.serverError, db')) := by
  have hdel : delete_ticket db ticket_id =
      some (T, { nextId := db.nextId,
                 tickets := db.tickets.filter (fun r => !(r.id == ticket_id)) }) := by
    simp only [delete_ticket, hGet]
  have hafter : get_ticket
      { nextId := db.nextId,
        tickets := db.tickets.filter (fun r => !(r.id == ticket_id)) } ticket_id = none :=
    find_erase db.tickets ticket_id
  refine ⟨_, hdel, hafter, ?_, ?_, ?_⟩
  · simp only [routes.getOne, hafter]
  · intro out hout
    exact ⟨by simp only [routes.deleteOne, hdel, hout], rfl⟩
  · intro hser
    simp only [routes.deleteOne, hdel, hser]

theorem delete_removes_and_get_404_amended_witness :
    get_ticket exDB 1 = some exTicket ∧
    (∃ db',
      delete_ticket exDB 1 = some (exTicket, db') ∧
      get_ticket db' 1 = none ∧
      routes.getOne db' 1 = (Response.notFound "Ticket not found", db') ∧
      (∀ out, serializeTicketOut exTicket = some out →
        routes.deleteOne exDB 1 = (Response.okTicket out, db') ∧
        statusCode (Response.okTicket out) = 200) ∧
      (serializeTicketOut exTicket = none →
        routes.deleteOne exDB 1 = (Response.serverError, db'))) :=
  ⟨by decide, delete_removes_and_get_404_amended exDB 1 exTicket (by decide)⟩

/-- CLAIM C4 counterexample — with the `status` query parameter present
but equal to the empty string, the handler returns every row (the
parameter is falsy), not the rows whose stored status equals the empty
string: `exTicket` has status `"open"` yet is listed. -/
theorem list_filter_claim_counterexample :
    routes.list_items exDB (some "") = [exTicket] ∧
    exDB.tickets.filter (fun t => t.status == some "") = [] := by decide

/-- CLAIM C4 amended — a present **non-empty** `status` parameter
restricts the listing to exactly the rows whose stored status equals it
(case-sensitive, no trimming); an absent parameter or a present
empty-string parameter returns all rows unfiltered. -/
theorem list_filter_semantics_amended (db : DB) (v : String) (hv : v ≠ "") :
    routes.list_items db (some v) = db.tickets.filter (fun t => t.status == some v) ∧
    routes.list_items db none = db.tickets ∧
    routes.list_items db (some "") = db.tickets := by
  refine ⟨?_, rfl, rfl⟩
  simp only [routes.list_items, get_all_tickets, if_neg hv]

theorem list_filter_semantics_amended_witness :
    ("open" : String) ≠ "" ∧
    (routes.list_items exDB (some "open") =
        exDB.tickets.filter (fun t => t.status == some "open") ∧
      routes.list_items exDB none = exDB.tickets ∧
      routes.list_items exDB (some "") = exDB.tickets) :=
  ⟨by decide, list_filter_semantics_amended exDB "open" (by decide)⟩

theorem update_only_status_preserves_title_description_witness :
    nonNullCore exDB ∧
    get_ticket exDB 1 = some exTicket ∧
    (∃ db',
      update_ticket exDB 1
          { title := FieldPatch.unset, description := FieldPatch.unset,
            status := FieldPatch.setStr "closed" } =
        UpdateOutcome.updated { exTicket with status := some "closed" } db' ∧
      get_ticket db' 1 = some { exTicket with status := some "closed" } ∧
      ({ exTicket with status := some "closed" } : Ticket).title = exTicket.title ∧
      ({ exTicket with status := some "closed" } : Ticket).description = exTicket.description) :=
  ⟨by decide, by decide,
   update_only_status_preserves_title_description exDB 1 "closed" exTicket
     (by decide) (by decide)⟩

end TicketApp
